import Mathlib

/-!
Shallow embedding of `convert-gptneox-hf-to-gguf.py` (HF GPT-NeoX → GGUF
converter): the vocabulary builder (`BpeVocab`), the per-tensor dtype policy
and squeeze step of the main tensor loop, the drop-list / name-mapping step,
shard enumeration (`count_model_parts` and the `part_names` generator), and
the early input checks with their exit behaviour.

Token texts and tensor names are UTF-8 byte strings in the source
(`item.encode("utf-8")`); for the pure-ASCII needles used by the program,
char-level prefix/suffix tests on Lean strings coincide with the byte-level
`bytes.startswith` / `bytes.endswith` of the source, since in UTF-8 no byte of
a multi-byte character equals an ASCII byte.
-/

/-- Char-level model of `bytes.startswith` / `str.startswith`. -/
def strStartsWith (s p : String) : Bool := p.data.isPrefixOf s.data

/-- Char-level model of `bytes.endswith` / `str.endswith`. -/
def strEndsWith (s p : String) : Bool := p.data.isSuffixOf s.data

/-- Values of `gguf.TokenType` used by the converter. -/
inductive TokenType where
  | NORMAL
  | UNKNOWN
  | CONTROL
  | BYTE
  | USER_DEFINED
  deriving DecidableEq

/-- One step of Python dict construction from a pair stream: inserting key `k`
with value `v` updates the value in place when `k` is already a key (keeping
the original key position), otherwise appends the pair at the end. -/
def dictInsert (d : List (String × Nat)) (k : String) (v : Nat) : List (String × Nat) :=
  if d.any (fun p => p.1 == k) then d.map (fun p => if p.1 = k then (k, v) else p)
  else d ++ [(k, v)]

/-- Python `dict(pairs)`: left-to-right insertion with last-value-wins. -/
def dictOfPairs (ps : List (String × Nat)) : List (String × Nat) :=
  ps.foldl (fun d p => dictInsert d p.1 p.2) []

/-- The keys of a dict modelled as an association list. -/
def dictKeys (d : List (String × Nat)) : List String := d.map Prod.fst

/-- Added-token selection of `BpeVocab.__init__` (lines 29-43): an explicit
`added_tokens.json` mapping is used as-is; otherwise the `added_tokens`
listing embedded in `tokenizer.json` is turned into a dict, keeping only
entries whose text is not already a key of the base vocabulary; when
`tokenizer.json` is absent the added-token set is empty. -/
def selectAddedTokens (explicitAdded : Option (List (String × Nat)))
    (tokenizerJsonAdded : Option (List (String × Nat)))
    (baseKeys : List String) : List (String × Nat) :=
  match explicitAdded with
  | some m => m
  | none =>
    match tokenizerJsonAdded with
    | none => []
    | some items => dictOfPairs (items.filter (fun it => !(baseKeys.contains it.1)))

/-- The §7 contiguity failure (`VocabConsistencyError`), carrying the data the
source interpolates into its message: the count of added ids, the expected
range `rangeLo - rangeHi`, and the actual sorted id list. -/
inductive VocabError where
  | vocabConsistency (count : Nat) (rangeLo : Nat) (rangeHi : Nat) (actualIds : List Nat)
  deriving DecidableEq

/-- The vocabulary state built by `BpeVocab.__init__`. `baseKeys` are the keys
of the `model.vocab` dict of `tokenizer.json` in insertion (= id) order. -/
structure BpeVocab where
  baseKeys : List String
  added_tokens_list : List String
  vocab_size_base : Nat
  vocab_size : Nat
  deriving DecidableEq

/-- Comparison key of `sorted(added_tokens.items(), key=lambda text_idx: text_idx[1])`. -/
def pairIdLe (a b : String × Nat) : Prop := a.2 ≤ b.2

instance : DecidableRel pairIdLe := fun a b => Nat.decLe a.2 b.2

instance : IsTotal (String × Nat) pairIdLe := ⟨fun a b => Nat.le_total a.2 b.2⟩

instance : IsTrans (String × Nat) pairIdLe := ⟨fun _ _ _ h h2 => Nat.le_trans h h2⟩

/-- Model of `sorted(added_tokens.values())`. -/
def sortedAddedIds (added : List (String × Nat)) : List Nat :=
  List.insertionSort (fun a b : Nat => a ≤ b) (added.map Prod.snd)

/-- Model of `sorted(added_tokens.items(), key=lambda text_idx: text_idx[1])`. -/
def addedItemsOf (added : List (String × Nat)) : List (String × Nat) :=
  List.insertionSort pairIdLe added

/-- Model of `BpeVocab.__init__` (lines 26-57): select the added tokens, validate that
their sorted ids are exactly `range(vocab_size, vocab_size + len(added))`,
and on success record the added texts sorted by id. -/
def bpeVocabInit (baseKeys : List String)
    (explicitAdded : Option (List (String × Nat)))
    (tokenizerJsonAdded : Option (List (String × Nat))) : Except VocabError BpeVocab :=
  let added_tokens := selectAddedTokens explicitAdded tokenizerJsonAdded baseKeys
  let vocab_size := baseKeys.length
  let expected_ids := List.range' vocab_size added_tokens.length
  let actual_ids := sortedAddedIds added_tokens
  if expected_ids ≠ actual_ids then
    Except.error (VocabError.vocabConsistency actual_ids.length vocab_size
      (vocab_size + actual_ids.length - 1) actual_ids)
  else
    let items := addedItemsOf added_tokens
    Except.ok { baseKeys := baseKeys
                added_tokens_list := items.map Prod.fst
                vocab_size_base := vocab_size
                vocab_size := vocab_size + (items.map Prod.fst).length }

/-- The base-token type heuristic of `BpeVocab.bpe_tokens` (lines 69-79). -/
def classify (i : Nat) (text : String) : TokenType :=
  if i ≤ 258 ∧ strStartsWith text "<" = true ∧ strEndsWith text ">" = true then
    if i = 0 ∧ text = "<unk>" then TokenType.UNKNOWN
    else if i = 1 ∨ i = 2 then TokenType.CONTROL
    else if 3 ≤ i ∧ strStartsWith text "<0x" = true then TokenType.BYTE
    else TokenType.NORMAL
  else TokenType.NORMAL

/-- Model of `BpeVocab.bpe_tokens`: base tokens in enumeration order, each with score
`0.0` (an exact constant, embedded as the integer 0) and heuristic type. -/
def BpeVocab.bpe_tokens (v : BpeVocab) : List (String × Int × TokenType) :=
  v.baseKeys.enum.map (fun p => (p.2, (0 : Int), classify p.1 p.2))

/-- Model of `BpeVocab.added_tokens`: added texts, each with score `-1000.0` (an exact
constant, embedded as the integer -1000) and type `USER_DEFINED`. -/
def BpeVocab.added_tokens (v : BpeVocab) : List (String × Int × TokenType) :=
  v.added_tokens_list.map (fun text => (text, (-1000 : Int), TokenType.USER_DEFINED))

/-- Model of `BpeVocab.all_tokens`: base tokens, then added tokens. -/
def BpeVocab.all_tokens (v : BpeVocab) : List (String × Int × TokenType) :=
  v.bpe_tokens ++ v.added_tokens

/-- Tensor element dtypes as the converter distinguishes them: `float16`,
`float32`, and everything else (`float64`, `bfloat16`, integer types, ...). -/
inductive DType where
  | f16
  | f32
  | other
  deriving DecidableEq

/-- Dtype and shape of one checkpoint tensor. -/
structure TensorData where
  dtype : DType
  shape : List Nat
  deriving DecidableEq

/-- The dtype+shape part of the main tensor loop (lines 277-304): normalize
unsupported dtypes to `float32`, squeeze away all size-1 dimensions
(`data.squeeze()`), then apply the three dtype rules, whose conditions all
test the dtype snapshot `data_dtype` taken before any of them runs. -/
def processTensor (ftype : Nat) (name : String) (t : TensorData) : TensorData :=
  let t1 := if t.dtype ≠ DType.f16 ∧ t.dtype ≠ DType.f32 then { t with dtype := DType.f32 } else t
  let t2 : TensorData := { t1 with shape := t1.shape.filter (fun d => d != 1) }
  let n_dims := t2.shape.length
  let data_dtype := t2.dtype
  let t3 := if ftype = 0 ∧ data_dtype = DType.f16 then { t2 with dtype := DType.f32 } else t2
  let t4 := if ftype = 1 ∧ data_dtype = DType.f16 ∧ n_dims = 1 then { t3 with dtype := DType.f32 } else t3
  if ftype = 1 ∧ data_dtype = DType.f32 ∧ strEndsWith name ".weight" = true ∧ n_dims = 2 then
    { t4 with dtype := DType.f16 }
  else t4

/-- The dtype policy of §4.3 (`decide`) as a function of target precision,
native dtype, squeezed rank, and the weight-suffix flag — the dtype component
of `processTensor` with rank and suffix flag abstracted as arguments. -/
def decideDtype (ftype : Nat) (dty : DType) (n_dims : Nat) (isWeightSuffix : Bool) : DType :=
  let data_dtype := if dty ≠ DType.f16 ∧ dty ≠ DType.f32 then DType.f32 else dty
  let d1 := if ftype = 0 ∧ data_dtype = DType.f16 then DType.f32 else data_dtype
  let d2 := if ftype = 1 ∧ data_dtype = DType.f16 ∧ n_dims = 1 then DType.f32 else d1
  if ftype = 1 ∧ data_dtype = DType.f32 ∧ isWeightSuffix = true ∧ n_dims = 2 then DType.f16
  else d2

/-- The drop-list test of the main tensor loop (line 274). -/
def isDroppedName (name : String) : Bool :=
  strEndsWith name ".attention.masked_bias" || strEndsWith name ".attention.bias" ||
    strEndsWith name ".attention.rotary_emb.inv_freq"

/-- What happens to one native tensor name in the main loop: skipped by the
drop-list, emitted under a canonical name, or a hard abort of the run. -/
inductive TensorAction where
  | dropped
  | emitted (canonical : String)
  | abort (offending : String)
  deriving DecidableEq

/-- The drop/map/abort control flow of the main tensor loop (lines 274-289),
with the gguf name map abstracted as a function to `Option String`. -/
def tensorStep (tensorMap : String → Option String) (name : String) : TensorAction :=
  if isDroppedName name then TensorAction.dropped
  else
    match tensorMap name with
    | none => TensorAction.abort name
    | some newName => TensorAction.emitted newName

/-- Model of `count_model_parts` (lines 115-123): count directory entries whose name
starts with `pytorch_model-`. -/
def count_model_parts (filenames : List String) : Nat :=
  filenames.foldl (fun n f => if strStartsWith f "pytorch_model-" then n + 1 else n) 0

/-- Python `f"{n:05}"`: decimal, zero-padded on the left to width 5. -/
def pad5 (n : Nat) : String :=
  let s := toString n
  if s.length < 5 then String.mk (List.replicate (5 - s.length) '0') ++ s else s

/-- One shard name from the template `pytorch_model-{n:05}-of-{num_parts:05}.bin`. -/
def partName (n : Nat) (num_parts : Nat) : String :=
  "pytorch_model-" ++ pad5 n ++ "-of-" ++ pad5 num_parts ++ ".bin"

/-- Model of `part_names` (lines 257-262): the monolithic name when `num_parts` is 0,
otherwise the shard template instantiated for `n = 1 .. num_parts` in order. -/
def part_names (num_parts : Nat) : List String :=
  if num_parts = 0 then ["pytorch_model.bin"]
  else (List.range' 1 num_parts).map (fun n => partName n num_parts)

/-- The shard files actually passed to `torch.load`, in load order: the loop
body (lines 264-268) breaks before the first load when `--vocab-only` is set,
and otherwise loads each element of `part_names` in sequence, one at a time. -/
def loadedParts (vocabOnly : Bool) (num_parts : Nat) : List String :=
  if vocabOnly then [] else part_names num_parts

/-- Output stream of a diagnostic `print`. -/
inductive OutChannel where
  | stdout
  | stderr
  deriving DecidableEq

/-- How the process is exited: `sys.exit()` with no argument, or `sys.exit(code)`. -/
inductive ExitKind where
  | bare
  | withCode (code : Nat)
  deriving DecidableEq

/-- Python semantics of `sys.exit`: a bare `sys.exit()` raises
`SystemExit(None)`, which terminates the process with status 0;
`sys.exit(code)` terminates with that status. -/
def exitStatus : ExitKind → Nat
  | ExitKind.bare => 0
  | ExitKind.withCode c => c

/-- A terminal failure: exit kind, stream the message is printed to, message. -/
structure FailureExit where
  kind : ExitKind
  channel : OutChannel
  message : String
  deriving DecidableEq

/-- An ASCII single-quote character as a string. -/
def squote : String := String.singleton (Char.ofNat 39)

/-- Lines 138-140: model path is not a directory. -/
def notDirFailure (model : String) : FailureExit :=
  { kind := ExitKind.withCode 1
    channel := OutChannel.stderr
    message := "Error: " ++ model ++ " is not a directory" }

/-- Lines 160-163: declared architecture is not the supported one. -/
def archFailure (arch : String) : FailureExit :=
  { kind := ExitKind.bare
    channel := OutChannel.stdout
    message := "Model architecture not supported: " ++ arch }

/-- Lines 192-194: `tokenizer.json` is missing from the model directory. -/
def missingTokenizerFailure (path : String) : FailureExit :=
  { kind := ExitKind.withCode 1
    channel := OutChannel.stderr
    message := "Error: Missing " ++ path }

/-- Lines 287-289: a native tensor name the gguf name map cannot map. -/
def unmappableTensorFailure (name : String) : FailureExit :=
  { kind := ExitKind.bare
    channel := OutChannel.stdout
    message := "Can not map tensor " ++ squote ++ name ++ squote }

/-- Orchestrator input-validation prefix in source order: the
not-a-directory check (line 138), then the architecture check (line 160),
then the `tokenizer.json` presence check (line 192); `some f` means the run
terminates with failure `f` before any tensor work. The missing-tokenizer
message interpolates the path `dir_model / "tokenizer.json"`. -/
def earlyChecks (modelIsDir : Bool) (modelPath : String) (declaredArch : String)
    (tokenizerPresent : Bool) : Option FailureExit :=
  if modelIsDir = false then some (notDirFailure modelPath)
  else if declaredArch ≠ "GPTNeoXForCausalLM" then some (archFailure declaredArch)
  else if tokenizerPresent = false then
    some (missingTokenizerFailure (modelPath ++ "/tokenizer.json"))
  else none

/-! ### Helper lemmas -/

theorem sortedAddedIds_length (added : List (String × Nat)) :
    (sortedAddedIds added).length = added.length := by
  unfold sortedAddedIds
  rw [(List.perm_insertionSort _ (added.map Prod.snd)).length_eq, List.length_map]

theorem addedItemsOf_length (added : List (String × Nat)) :
    (addedItemsOf added).length = added.length :=
  (List.perm_insertionSort pairIdLe added).length_eq

theorem map_snd_addedItemsOf (added : List (String × Nat)) :
    (addedItemsOf added).map Prod.snd = sortedAddedIds added := by
  have h1 : List.Sorted (fun a b : Nat => a ≤ b) ((addedItemsOf added).map Prod.snd) :=
    (List.sorted_insertionSort pairIdLe added).map Prod.snd (fun a b h => h)
  have h2 : List.Sorted (fun a b : Nat => a ≤ b) (sortedAddedIds added) :=
    List.sorted_insertionSort _ _
  exact List.eq_of_perm_of_sorted
    (((List.perm_insertionSort pairIdLe added).map Prod.snd).trans
      (List.perm_insertionSort _ (added.map Prod.snd)).symm) h1 h2

theorem bpeVocabInit_ok_fields (baseKeys : List String)
    (expl emb : Option (List (String × Nat))) (v : BpeVocab)
    (h : bpeVocabInit baseKeys expl emb = Except.ok v) :
    v.baseKeys = baseKeys ∧
    v.added_tokens_list = (addedItemsOf (selectAddedTokens expl emb baseKeys)).map Prod.fst ∧
    v.vocab_size_base = baseKeys.length ∧
    v.vocab_size = baseKeys.length + (addedItemsOf (selectAddedTokens expl emb baseKeys)).length ∧
    (addedItemsOf (selectAddedTokens expl emb baseKeys)).map Prod.snd
      = List.range' baseKeys.length (addedItemsOf (selectAddedTokens expl emb baseKeys)).length := by
  unfold bpeVocabInit at h
  by_cases hc : List.range' baseKeys.length (selectAddedTokens expl emb baseKeys).length
      ≠ sortedAddedIds (selectAddedTokens expl emb baseKeys)
  · rw [if_pos hc] at h
    exact absurd h (by simp)
  · rw [if_neg hc] at h
    rw [not_not] at hc
    have hv := Except.ok.inj h
    subst hv
    refine ⟨rfl, rfl, rfl, ?_, ?_⟩
    · simp [List.length_map]
    · rw [map_snd_addedItemsOf, ← hc, addedItemsOf_length]

theorem all_tokens_get_base (v : BpeVocab) (i : Nat) (hi : i < v.baseKeys.length) :
    (v.all_tokens)[i]? = (v.baseKeys[i]?).map (fun t => (t, (0 : Int), classify i t)) := by
  unfold BpeVocab.all_tokens BpeVocab.bpe_tokens
  rw [List.getElem?_append, if_pos (by simpa [List.enum_length] using hi)]
  rw [List.getElem?_map, List.getElem?_enum]
  cases h : v.baseKeys[i]? <;> simp

theorem all_tokens_get_added (v : BpeVocab) (j : Nat) :
    (v.all_tokens)[v.baseKeys.length + j]?
      = (v.added_tokens_list[j]?).map (fun t => (t, (-1000 : Int), TokenType.USER_DEFINED)) := by
  unfold BpeVocab.all_tokens BpeVocab.bpe_tokens BpeVocab.added_tokens
  rw [List.getElem?_append_right (by simp [List.enum_length])]
  simp [List.enum_length]

/-! ### Claim theorems -/

/-- C1: for every added-token mapping whose sorted ids are not exactly the
contiguous range `[vocab_size_base, vocab_size_base + k)`, vocabulary
construction fails with the contiguity error (`VocabConsistencyError`) naming
the expected id range `vocab_size_base .. vocab_size_base + k - 1` and the
actual sorted id list. -/
theorem contiguity_violation_fails (baseKeys : List String)
    (expl emb : Option (List (String × Nat)))
    (h : sortedAddedIds (selectAddedTokens expl emb baseKeys)
        ≠ List.range' baseKeys.length (selectAddedTokens expl emb baseKeys).length) :
    bpeVocabInit baseKeys expl emb = Except.error (VocabError.vocabConsistency
      (sortedAddedIds (selectAddedTokens expl emb baseKeys)).length
      baseKeys.length
      (baseKeys.length + (sortedAddedIds (selectAddedTokens expl emb baseKeys)).length - 1)
      (sortedAddedIds (selectAddedTokens expl emb baseKeys))) := by
  simp only [bpeVocabInit]
  rw [if_pos (Ne.symm h)]

/-- C1 witness: Scenario C — base size 100 with added tokens
`{"<pad>": 100, "<sep>": 105}` fails naming expected range 100-101 and the
sorted ids `[100, 105]`. -/
theorem contiguity_violation_fails_witness :
    bpeVocabInit ((List.range 100).map (fun n => toString n))
        (some [("<pad>", 100), ("<sep>", 105)]) none
      = Except.error (VocabError.vocabConsistency 2 100 101 [100, 105]) :=
  (contiguity_violation_fails ((List.range 100).map (fun n => toString n))
      (some [("<pad>", 100), ("<sep>", 105)]) none (by decide)).trans (by rfl)

/-- C2: in a successfully built vocabulary, the token at position i has
numeric id i: positions `0 .. vocab_size_base - 1` hold the base tokens in id
order, and position `vocab_size_base + j` holds the added token whose id is
`vocab_size_base + j` — the added tokens in ascending id order. -/
theorem token_position_eq_id (baseKeys : List String)
    (expl emb : Option (List (String × Nat))) (v : BpeVocab)
    (h : bpeVocabInit baseKeys expl emb = Except.ok v) :
    v.vocab_size_base = baseKeys.length ∧
    (∀ i, i < baseKeys.length →
      (v.all_tokens)[i]? = (baseKeys[i]?).map (fun t => (t, (0 : Int), classify i t))) ∧
    (∀ j, j < (addedItemsOf (selectAddedTokens expl emb baseKeys)).length →
      ((addedItemsOf (selectAddedTokens expl emb baseKeys))[j]?).map Prod.snd
          = some (baseKeys.length + j) ∧
      (v.all_tokens)[baseKeys.length + j]?
          = ((addedItemsOf (selectAddedTokens expl emb baseKeys))[j]?).map
              (fun p => (p.1, (-1000 : Int), TokenType.USER_DEFINED))) := by
  obtain ⟨hb, hl, hsb, _, hids⟩ := bpeVocabInit_ok_fields baseKeys expl emb v h
  refine ⟨hsb, ?_, ?_⟩
  · intro i hi
    rw [all_tokens_get_base v i (by rw [hb]; exact hi), hb]
  · intro j hj
    constructor
    · rw [← List.getElem?_map, hids, List.getElem?_range' _ _ hj, Nat.one_mul]
    · have hpos := all_tokens_get_added v j
      rw [hb] at hpos
      rw [hpos, hl, List.getElem?_map]
      cases (addedItemsOf (selectAddedTokens expl emb baseKeys))[j]? <;> simp

/-- C2 witness: base `["a", "b"]` with explicit added tokens given unsorted as
`{"d": 3, "c": 2}` builds successfully; the instantiated conclusion. -/
theorem token_position_eq_id_witness :
    (BpeVocab.mk ["a", "b"] ["c", "d"] 2 4).vocab_size_base = (["a", "b"] : List String).length ∧
    (∀ i, i < (["a", "b"] : List String).length →
      ((BpeVocab.mk ["a", "b"] ["c", "d"] 2 4).all_tokens)[i]?
        = ((["a", "b"] : List String)[i]?).map (fun t => (t, (0 : Int), classify i t))) ∧
    (∀ j, j < (addedItemsOf (selectAddedTokens (some [("d", 3), ("c", 2)]) none ["a", "b"])).length →
      ((addedItemsOf (selectAddedTokens (some [("d", 3), ("c", 2)]) none ["a", "b"]))[j]?).map Prod.snd
          = some ((["a", "b"] : List String).length + j) ∧
      ((BpeVocab.mk ["a", "b"] ["c", "d"] 2 4).all_tokens)[(["a", "b"] : List String).length + j]?
          = ((addedItemsOf (selectAddedTokens (some [("d", 3), ("c", 2)]) none ["a", "b"]))[j]?).map
              (fun p => (p.1, (-1000 : Int), TokenType.USER_DEFINED))) :=
  token_position_eq_id ["a", "b"] (some [("d", 3), ("c", 2)]) none
    (BpeVocab.mk ["a", "b"] ["c", "d"] 2 4) (by rfl)

/-- C5: the built vocabulary has length `vocab_size_base + added_count` and is
3-way aligned: every base token carries score 0 and the heuristic type, in
which only tokens at index at most 258 whose text is delimited by angle
brackets may be UNKNOWN, CONTROL or BYTE and every other base token is
NORMAL; every added token is appended after all base tokens as
`(text, -1000, USER_DEFINED)` in ascending id order. -/
theorem built_vocab_table (baseKeys : List String)
    (expl emb : Option (List (String × Nat))) (v : BpeVocab)
    (h : bpeVocabInit baseKeys expl emb = Except.ok v) :
    (v.all_tokens).length = v.vocab_size_base + v.added_tokens_list.length ∧
    v.vocab_size_base = baseKeys.length ∧
    (∀ i, i < baseKeys.length →
        (v.all_tokens)[i]? = (baseKeys[i]?).map (fun t => (t, (0 : Int), classify i t))) ∧
    (∀ i t, (classify i t = TokenType.UNKNOWN ∨ classify i t = TokenType.CONTROL ∨
             classify i t = TokenType.BYTE) →
        i ≤ 258 ∧ strStartsWith t "<" = true ∧ strEndsWith t ">" = true) ∧
    (∀ i t, ¬(i ≤ 258 ∧ strStartsWith t "<" = true ∧ strEndsWith t ">" = true) →
        classify i t = TokenType.NORMAL) ∧
    (∀ j, (v.all_tokens)[baseKeys.length + j]?
        = (v.added_tokens_list[j]?).map (fun t => (t, (-1000 : Int), TokenType.USER_DEFINED))) ∧
    ((v.added_tokens_list).length = (selectAddedTokens expl emb baseKeys).length ∧
      (addedItemsOf (selectAddedTokens expl emb baseKeys)).map Prod.snd
        = List.range' baseKeys.length (addedItemsOf (selectAddedTokens expl emb baseKeys)).length) := by
  obtain ⟨hb, hl, hsb, _, hids⟩ := bpeVocabInit_ok_fields baseKeys expl emb v h
  refine ⟨?_, hsb, ?_, ?_, ?_, ?_, ?_, hids⟩
  · unfold BpeVocab.all_tokens BpeVocab.bpe_tokens BpeVocab.added_tokens
    rw [hsb, hb]
    simp [List.enum_length]
  · intro i hi
    rw [all_tokens_get_base v i (by rw [hb]; exact hi), hb]
  · intro i t ht
    by_cases hc : i ≤ 258 ∧ strStartsWith t "<" = true ∧ strEndsWith t ">" = true
    · exact hc
    · exfalso
      unfold classify at ht
      rw [if_neg hc] at ht
      rcases ht with ht | ht | ht <;> exact TokenType.noConfusion ht
  · intro i t hc
    unfold classify
    rw [if_neg hc]
  · intro j
    have hpos := all_tokens_get_added v j
    rw [hb] at hpos
    exact hpos
  · rw [hl, List.length_map, addedItemsOf_length]

/-- C5 witness: the instantiated conclusion for base `["<unk>", "x"]` with
embedded added tokens `[("t", 2)]` and no explicit file. -/
theorem built_vocab_table_witness :
    ((BpeVocab.mk ["<unk>", "x"] ["t"] 2 3).all_tokens).length
        = (BpeVocab.mk ["<unk>", "x"] ["t"] 2 3).vocab_size_base
            + (BpeVocab.mk ["<unk>", "x"] ["t"] 2 3).added_tokens_list.length ∧
    (BpeVocab.mk ["<unk>", "x"] ["t"] 2 3).vocab_size_base = (["<unk>", "x"] : List String).length ∧
    (∀ i, i < (["<unk>", "x"] : List String).length →
        ((BpeVocab.mk ["<unk>", "x"] ["t"] 2 3).all_tokens)[i]?
          = ((["<unk>", "x"] : List String)[i]?).map (fun t => (t, (0 : Int), classify i t))) ∧
    (∀ i t, (classify i t = TokenType.UNKNOWN ∨ classify i t = TokenType.CONTROL ∨
             classify i t = TokenType.BYTE) →
        i ≤ 258 ∧ strStartsWith t "<" = true ∧ strEndsWith t ">" = true) ∧
    (∀ i t, ¬(i ≤ 258 ∧ strStartsWith t "<" = true ∧ strEndsWith t ">" = true) →
        classify i t = TokenType.NORMAL) ∧
    (∀ j, ((BpeVocab.mk ["<unk>", "x"] ["t"] 2 3).all_tokens)[(["<unk>", "x"] : List String).length + j]?
        = ((BpeVocab.mk ["<unk>", "x"] ["t"] 2 3).added_tokens_list[j]?).map
            (fun t => (t, (-1000 : Int), TokenType.USER_DEFINED))) ∧
    (((BpeVocab.mk ["<unk>", "x"] ["t"] 2 3).added_tokens_list).length
        = (selectAddedTokens none (some [("t", 2)]) ["<unk>", "x"]).length ∧
      (addedItemsOf (selectAddedTokens none (some [("t", 2)]) ["<unk>", "x"])).map Prod.snd
        = List.range' (["<unk>", "x"] : List String).length
            (addedItemsOf (selectAddedTokens none (some [("t", 2)]) ["<unk>", "x"])).length) :=
  built_vocab_table ["<unk>", "x"] none (some [("t", 2)])
    (BpeVocab.mk ["<unk>", "x"] ["t"] 2 3) (by rfl)

theorem mem_dictKeys_dictInsert (d : List (String × Nat)) (k : String) (v : Nat) (x : String) :
    x ∈ dictKeys (dictInsert d k v) ↔ x ∈ dictKeys d ∨ x = k := by
  unfold dictInsert dictKeys
  by_cases h : d.any (fun p => p.1 == k) = true
  · rw [if_pos h]
    have hk : k ∈ d.map Prod.fst := by
      rw [List.any_eq_true] at h
      obtain ⟨p, hp, hpk⟩ := h
      rw [beq_iff_eq] at hpk
      exact hpk ▸ List.mem_map_of_mem Prod.fst hp
    have hmap : (d.map (fun p => if p.1 = k then (k, v) else p)).map Prod.fst
        = d.map Prod.fst := by
      rw [List.map_map]
      apply List.map_congr_left
      intro p _
      by_cases hpk : p.1 = k
      · simp [hpk]
      · simp [hpk]
    rw [hmap]
    constructor
    · exact Or.inl
    · rintro (hx | rfl)
      · exact hx
      · exact hk
  · rw [if_neg h]
    simp

theorem mem_dictKeys_dictOfPairs (ps : List (String × Nat)) (x : String) :
    x ∈ dictKeys (dictOfPairs ps) ↔ x ∈ ps.map Prod.fst := by
  suffices hgen : ∀ d, x ∈ dictKeys (ps.foldl (fun d p => dictInsert d p.1 p.2) d)
      ↔ x ∈ dictKeys d ∨ x ∈ ps.map Prod.fst by
    have hnil := hgen []
    simpa [dictOfPairs, dictKeys] using hnil
  induction ps with
  | nil => intro d; simp
  | cons p ps ih =>
    intro d
    rw [List.foldl_cons, ih (dictInsert d p.1 p.2), mem_dictKeys_dictInsert]
    simp only [List.map_cons, List.mem_cons]
    tauto

theorem fst_mem_of_mem_dictOfPairs (ps : List (String × Nat)) (p : String × Nat)
    (hp : p ∈ dictOfPairs ps) : p.1 ∈ ps.map Prod.fst := by
  have hx : p.1 ∈ dictKeys (dictOfPairs ps) := List.mem_map_of_mem Prod.fst hp
  rwa [mem_dictKeys_dictOfPairs] at hx

/-- C6: explicit added-tokens data is used as-is, with entries colliding with
the base vocabulary NOT excluded; the embedded fallback listing is used with
every entry whose text is already a base key filtered out; with neither
source the added-token set is empty. -/
theorem added_token_selection :
    (∀ expl emb baseKeys, selectAddedTokens (some expl) emb baseKeys = expl) ∧
    (∀ baseKeys, selectAddedTokens none none baseKeys = []) ∧
    (∀ items baseKeys x,
        x ∈ dictKeys (selectAddedTokens none (some items) baseKeys) ↔
          x ∈ (items.filter (fun it => !(baseKeys.contains it.1))).map Prod.fst) ∧
    (∀ items baseKeys p, p ∈ selectAddedTokens none (some items) baseKeys →
        ¬ p.1 ∈ baseKeys) := by
  refine ⟨fun _ _ _ => rfl, fun _ => rfl, ?_, ?_⟩
  · intro items baseKeys x
    exact mem_dictKeys_dictOfPairs _ x
  · intro items baseKeys p hp
    have h1 := fst_mem_of_mem_dictOfPairs _ _ hp
    rw [List.mem_map] at h1
    obtain ⟨q, hq, hfst⟩ := h1
    rw [List.mem_filter] at hq
    have hnc := hq.2
    intro hmem
    rw [← hfst] at hmem
    rw [Bool.not_eq_eq_eq_not, Bool.not_true] at hnc
    have htrue : baseKeys.contains q.1 = true := List.elem_eq_true_of_mem hmem
    rw [htrue] at hnc
    exact Bool.noConfusion hnc

/-- C6 witness: a colliding explicit entry is kept as-is; a fallback entry
that survives the filter has text outside the base vocabulary. -/
theorem added_token_selection_witness :
    selectAddedTokens (some [("a", 1)]) (some [("b", 9)]) ["a"] = [("a", 1)] ∧
    ¬ "p" ∈ (["a"] : List String) :=
  ⟨added_token_selection.1 [("a", 1)] (some [("b", 9)]) ["a"],
   added_token_selection.2.2.2 [("p", 1), ("a", 0)] ["a"] ("p", 1) (by decide)⟩

/-- C3: the per-tensor dtype policy. Any dtype other than f16/f32 is first
normalized to f32, never an error (it then behaves exactly like an f32
input); under a 32-bit target every f16 tensor is upcast regardless of rank
and everything else keeps its dtype; under a 16-bit target a rank-1 f16
tensor is upcast to f32, a rank-2 f32 weight-suffixed tensor is downcast to
f16, every other combination keeps its dtype; and no tensor of rank other
than 2 is ever downcast (an f16 output means an f16 input). -/
theorem dtype_policy_cases :
    (∀ ft n w, decideDtype ft DType.other n w = decideDtype ft DType.f32 n w) ∧
    (∀ n w, decideDtype 0 DType.f16 n w = DType.f32) ∧
    (∀ n w, decideDtype 0 DType.f32 n w = DType.f32) ∧
    (∀ w, decideDtype 1 DType.f16 1 w = DType.f32) ∧
    (∀ n w, n ≠ 1 → decideDtype 1 DType.f16 n w = DType.f16) ∧
    (decideDtype 1 DType.f32 2 true = DType.f16) ∧
    (∀ n w, ¬(w = true ∧ n = 2) → decideDtype 1 DType.f32 n w = DType.f32) ∧
    (∀ ft d n w, n ≠ 2 → decideDtype ft d n w = DType.f16 → d = DType.f16) := by
  refine ⟨fun ft n w => rfl, fun n w => rfl, fun n w => rfl, fun w => rfl, ?_, rfl, ?_, ?_⟩
  · intro n w hn
    simp [decideDtype, hn]
  · intro n w h
    simp only [decideDtype]
    rw [if_neg (by tauto), if_neg (by tauto), if_neg (by tauto), if_neg (by tauto)]
  · intro ft d n w hn h
    cases d
    · rfl
    · exfalso
      revert h
      simp [decideDtype, hn]
    · exfalso
      revert h
      simp [decideDtype, hn]

/-- C3 witness: the hypothesis-bearing clauses at concrete inputs. -/
theorem dtype_policy_cases_witness :
    decideDtype 1 DType.f16 2 false = DType.f16 ∧
    decideDtype 1 DType.f32 1 true = DType.f32 ∧
    decideDtype 1 DType.f32 2 false = DType.f32 :=
  ⟨dtype_policy_cases.2.2.2.2.1 2 false (by decide),
   dtype_policy_cases.2.2.2.2.2.2.1 1 true (by decide),
   dtype_policy_cases.2.2.2.2.2.2.1 2 false (by decide)⟩

/-- C8: the dtype decision is a pure function of its four inputs, and the
32-bit-target decision is idempotent: composing it with itself on the dtype
equals applying it once. -/
theorem dtype_policy_idempotent :
    (∀ ft d n w ft2 d2 n2 w2, ft = ft2 → d = d2 → n = n2 → w = w2 →
        decideDtype ft d n w = decideDtype ft2 d2 n2 w2) ∧
    (∀ d n w, decideDtype 0 (decideDtype 0 d n w) n w = decideDtype 0 d n w) := by
  constructor
  · intro ft d n w ft2 d2 n2 w2 h1 h2 h3 h4
    subst h1; subst h2; subst h3; subst h4
    rfl
  · intro d n w
    cases d <;> rfl

/-- C8 witness: the purity clause applied at a concrete input. -/
theorem dtype_policy_idempotent_witness :
    decideDtype 0 DType.f16 2 true = decideDtype 0 DType.f16 2 true :=
  dtype_policy_idempotent.1 0 DType.f16 2 true 0 DType.f16 2 true rfl rfl rfl rfl

/-- C9: the rank consulted by the dtype policy is the rank after all size-1
dimensions are removed (the buffer is squeezed before the rank test, and the
squeezed shape is what is emitted); consequently under a 16-bit target an f32
`.weight` tensor of shape (1, n) is treated as rank 1 (for n different from
1) and is never downcast to f16. -/
theorem squeeze_before_rank_test :
    (∀ ft name t, (processTensor ft name t).shape = t.shape.filter (fun d => d != 1)) ∧
    (∀ ft name t, (processTensor ft name t).dtype
        = decideDtype ft t.dtype ((t.shape.filter (fun d => d != 1)).length)
            (strEndsWith name ".weight")) ∧
    (∀ ft name n, n ≠ 1 →
        (processTensor ft name (TensorData.mk DType.f32 [1, n])).shape.length = 1) ∧
    (∀ name n, strEndsWith name ".weight" = true →
        (processTensor 1 name (TensorData.mk DType.f32 [1, n])).dtype = DType.f32) := by
  have hshape : ∀ ft name t, (processTensor ft name t).shape
      = t.shape.filter (fun d => d != 1) := by
    intro ft name t
    obtain ⟨dty, shape⟩ := t
    cases dty <;> simp only [processTensor] <;> split_ifs <;> rfl
  have hdtype : ∀ ft name t, (processTensor ft name t).dtype
      = decideDtype ft t.dtype ((t.shape.filter (fun d => d != 1)).length)
          (strEndsWith name ".weight") := by
    intro ft name t
    obtain ⟨dty, shape⟩ := t
    cases dty <;> simp only [processTensor, decideDtype] <;> split_ifs <;> simp_all
  refine ⟨hshape, hdtype, ?_, ?_⟩
  · intro ft name n hn
    rw [hshape]
    have hb : (n != 1) = true := by simp [hn]
    simp [List.filter, hb]
  · intro name n hw
    rw [hdtype, hw]
    by_cases hn : n = 1
    · subst hn
      rfl
    · have hb : (n != 1) = true := by simp [hn]
      have : ([1, n].filter (fun d => d != 1)).length = 1 := by simp [List.filter, hb]
      rw [this]
      rfl

/-- C9 witness: a (1, 7) f32 weight tensor under a 16-bit target is treated
as rank 1 and keeps dtype f32. -/
theorem squeeze_before_rank_test_witness :
    (processTensor 1 "output.weight" (TensorData.mk DType.f32 [1, 7])).shape.length = 1 ∧
    (processTensor 1 "output.weight" (TensorData.mk DType.f32 [1, 7])).dtype = DType.f32 :=
  ⟨squeeze_before_rank_test.2.2.1 1 "output.weight" 7 (by decide),
   squeeze_before_rank_test.2.2.2 "output.weight" 7 (by decide)⟩

/-- C4: every native tensor name that ends with one of the three drop-list
suffixes is dropped before name remapping (the outcome does not depend on the
name map at all); for every other name, either the map yields a canonical
name and the tensor is emitted under it, or the run aborts reporting the
offending native name — and a name is only ever dropped when it is on the
drop-list, so no tensor is silently skipped. -/
theorem tensor_loop_coverage :
    (∀ name, isDroppedName name = true →
        ∀ m1 m2 : String → Option String,
          tensorStep m1 name = TensorAction.dropped ∧ tensorStep m1 name = tensorStep m2 name) ∧
    (∀ (m : String → Option String) name, isDroppedName name = false →
        ((∃ c, m name = some c ∧ tensorStep m name = TensorAction.emitted c) ∨
         (m name = none ∧ tensorStep m name = TensorAction.abort name))) ∧
    (∀ (m : String → Option String) name,
        tensorStep m name = TensorAction.dropped → isDroppedName name = true) := by
  refine ⟨?_, ?_, ?_⟩
  · intro name h m1 m2
    constructor <;> simp [tensorStep, h]
  · intro m name h
    cases hm : m name with
    | none => exact Or.inr ⟨rfl, by simp [tensorStep, h, hm]⟩
    | some c => exact Or.inl ⟨c, rfl, by simp [tensorStep, h, hm]⟩
  · intro m name h
    by_cases hd : isDroppedName name = true
    · exact hd
    · exfalso
      simp only [tensorStep] at h
      rw [if_neg hd] at h
      cases hm : m name <;> rw [hm] at h <;> exact TensorAction.noConfusion h

/-- C4 witness: a drop-list name is dropped under any map; a mappable name is
emitted; an unmappable name aborts with the offending name. -/
theorem tensor_loop_coverage_witness :
    (tensorStep (fun _ => none) "gpt_neox.layers.0.attention.bias" = TensorAction.dropped) ∧
    ((∃ c, (fun _ => some "out") "a.b" = some c ∧
        tensorStep (fun _ => some "out") "a.b" = TensorAction.emitted c) ∨
     ((fun _ => some "out") "a.b" = none ∧
        tensorStep (fun _ => some "out") "a.b" = TensorAction.abort "a.b")) ∧
    ((∃ c, (fun _ => (none : Option String)) "a.b" = some c ∧
        tensorStep (fun _ => none) "a.b" = TensorAction.emitted c) ∨
     ((fun _ => (none : Option String)) "a.b" = none ∧
        tensorStep (fun _ => none) "a.b" = TensorAction.abort "a.b")) :=
  ⟨(tensor_loop_coverage.1 "gpt_neox.layers.0.attention.bias" (by decide)
      (fun _ => none) (fun _ => none)).1,
   tensor_loop_coverage.2.1 (fun _ => some "out") "a.b" (by decide),
   tensor_loop_coverage.2.1 (fun _ => none) "a.b" (by decide)⟩

/-- C7: with a counted shard number of zero, exactly the single monolithic
file `pytorch_model.bin` is loaded; with shard count n > 0, exactly n files
are loaded, the one at load position i being
`pytorch_model-{i+1:05}-of-{n:05}.bin` (strictly ascending shard index); in
vocab-only mode nothing is loaded. -/
theorem shard_enumeration :
    loadedParts false 0 = ["pytorch_model.bin"] ∧
    (∀ n, 0 < n → (loadedParts false n).length = n) ∧
    (∀ n i, i < n → (loadedParts false n)[i]? = some (partName (1 + i) n)) ∧
    (∀ n, loadedParts true n = []) := by
  refine ⟨rfl, ?_, ?_, fun n => rfl⟩
  · intro n hn
    have hnz : n ≠ 0 := Nat.pos_iff_ne_zero.mp hn
    simp [loadedParts, part_names, hnz]
  · intro n i hi
    have hnz : n ≠ 0 := by omega
    simp [loadedParts, part_names, hnz, List.getElem?_range', hi]

/-- C7 witness: Scenario E — three shards are loaded, in ascending order,
under the zero-padded names. -/
theorem shard_enumeration_witness :
    (loadedParts false 3).length = 3 ∧
    (loadedParts false 3)[0]? = some "pytorch_model-00001-of-00003.bin" ∧
    (loadedParts false 3)[1]? = some "pytorch_model-00002-of-00003.bin" ∧
    (loadedParts false 3)[2]? = some "pytorch_model-00003-of-00003.bin" :=
  ⟨shard_enumeration.2.1 3 (by decide),
   (shard_enumeration.2.2.1 3 0 (by decide)).trans (by rfl),
   (shard_enumeration.2.2.1 3 1 (by decide)).trans (by rfl),
   (shard_enumeration.2.2.1 3 2 (by decide)).trans (by rfl)⟩

/-- C10: the unsupported-architecture and unmappable-tensor failures exit
through a bare `sys.exit()` — process status 0, indistinguishable from
success by exit code — printing the offending architecture or tensor name to
stdout; the not-a-directory and missing-tokenizer failures print to stderr
and exit with status 1. -/
theorem exit_status_design :
    (∀ path arch tok, arch ≠ "GPTNeoXForCausalLM" →
        earlyChecks true path arch tok = some (archFailure arch) ∧
        (archFailure arch).kind = ExitKind.bare ∧
        exitStatus (archFailure arch).kind = 0 ∧
        (archFailure arch).channel = OutChannel.stdout ∧
        (archFailure arch).message = "Model architecture not supported: " ++ arch) ∧
    (∀ name,
        (unmappableTensorFailure name).kind = ExitKind.bare ∧
        exitStatus (unmappableTensorFailure name).kind = 0 ∧
        (unmappableTensorFailure name).channel = OutChannel.stdout ∧
        (unmappableTensorFailure name).message
          = "Can not map tensor " ++ squote ++ name ++ squote) ∧
    (∀ path arch tok,
        earlyChecks false path arch tok = some (notDirFailure path) ∧
        exitStatus (notDirFailure path).kind = 1 ∧
        (notDirFailure path).channel = OutChannel.stderr) ∧
    (∀ path,
        earlyChecks true path "GPTNeoXForCausalLM" false
          = some (missingTokenizerFailure (path ++ "/tokenizer.json")) ∧
        exitStatus (missingTokenizerFailure path).kind = 1 ∧
        (missingTokenizerFailure path).channel = OutChannel.stderr) := by
  refine ⟨?_, fun name => ⟨rfl, rfl, rfl, rfl⟩, fun path arch tok => ⟨rfl, rfl, rfl⟩,
    fun path => ⟨rfl, rfl, rfl⟩⟩
  intro path arch tok h
  refine ⟨?_, rfl, rfl, rfl, rfl⟩
  simp [earlyChecks, h]

/-- C10 witness: a wrong architecture exits bare (status 0) on stdout. -/
theorem exit_status_design_witness :
    earlyChecks true "m" "LlamaForCausalLM" true = some (archFailure "LlamaForCausalLM") ∧
    exitStatus (archFailure "LlamaForCausalLM").kind = 0 :=
  ⟨(exit_status_design.1 "m" "LlamaForCausalLM" true (by decide)).1,
   (exit_status_design.1 "m" "LlamaForCausalLM" true (by decide)).2.2.1⟩
